import Mathlib

/-
Verification of the `MyFile` resource accessor (src/lab_77.py).

The class is shallowly embedded:
* Python exceptions become the inductive `PyExc`; raising is modelled by
  `Except PyExc`.  Note that in Python `IOError` is an alias of `OSError`,
  and the class re-raises both `FileNotFoundError` and `PermissionError`
  as plain `IOError(...)`, so both map to the single constructor
  `PyExc.ioError` here.
* The local file system, including permission failures and the
  possibility of other run-time faults while reading or writing, is the
  explicit state `FSState`.  Opening a file for reading with
  `open(path, 'r', encoding='utf-8')` (newline = None) enables Python's
  universal-newline translation, modelled by `univNewlines`; writing in
  text mode translates LF to `os.linesep`, which is LF itself on the
  POSIX platform assumed by the spec (section 6), modelled by
  `writeTranslate`.
* The network is an oracle `FetchResult` passed to the URL operations.
* `str.lower` is modelled on ASCII letters by `pyLower`.
-/

/-- Python exception values observable from `MyFile`.  `otherExc` stands
for any other exception class (for example `IsADirectoryError` or
`UnicodeDecodeError`) escaping from the underlying primitives; its first
field names the class. -/
inductive PyExc where
  | valueError (msg : String)
  | ioError (msg : String)
  | otherExc (cls : String) (msg : String)
deriving DecidableEq, Repr

/-- The dynamic type (class) of an exception, which is what `except`
clauses discriminate on. -/
inductive PyExcKind where
  | valueError
  | ioError
  | otherExc (cls : String)
deriving DecidableEq, Repr

def PyExc.kind : PyExc → PyExcKind
  | .valueError _ => .valueError
  | .ioError _ => .ioError
  | .otherExc cls _ => .otherExc cls

/-- Message text carried by an exception, used where the Python code
interpolates a caught exception into a new message. -/
def PyExc.text : PyExc → String
  | .valueError m => m
  | .ioError m => m
  | .otherExc _ m => m

/-- `str.lower`, modelled on ASCII letters. -/
def pyLower (s : String) : String := String.mk (s.data.map Char.toLower)

/-- Message of the `ValueError` raised by `__init__` on a bad mode. -/
def invalidModeMsg (mode : String) : String :=
  "Недопустимый режим " ++ mode ++ ". Допустимые режимы: [read, write, append, url]"

/-- Message of the `ValueError` raised by `__init__` on a bad URL. -/
def invalidUrlMsg (path : String) : String :=
  path ++ " не является валидным URL для режима url"

def readModeMsg (mode : String) : String :=
  "Метод read() доступен только в режиме read, текущий режим: " ++ mode

def readNotFoundMsg (path : String) : String :=
  "Файл " ++ path ++ " не найден"

def readPermMsg (path : String) : String :=
  "Нет прав на чтение файла " ++ path

def writeModeMsg (mode : String) : String :=
  "Метод write() доступен только в режимах write или append, текущий режим: " ++ mode

def writePermMsg (path : String) : String :=
  "Нет прав на запись в файл " ++ path

/-- `except Exception as e: raise IOError(f"Ошибка при записи в файл: {e}")`. -/
def writeWrapMsg (e : PyExc) : String :=
  "Ошибка при записи в файл: " ++ e.text

/-- An instance of the Python class `MyFile`: the `path` and (already
lower-cased) `mode` attributes.  The `file` handle attribute is not part
of the state: every operation opens and closes it internally and no
claim observes it. -/
structure MyFile where
  path : String
  mode : String
deriving DecidableEq, Repr

def MyFile.valid_modes : List String := ["read", "write", "append", "url"]

/-- `MyFile._is_url`. -/
def MyFile.is_url (path : String) : Bool :=
  ["http://", "https://", "ftp://", "file://"].any
    (fun pat => pat.data.isPrefixOf path.data)

/-- `MyFile.__init__(path, mode)`: lower-cases the mode, rejects modes
outside `valid_modes` with `ValueError`, and for mode `url` rejects a
path lacking a recognized scheme with `ValueError`. -/
def MyFile.init (path mode : String) : Except PyExc MyFile :=
  let m := pyLower mode
  if m ∈ MyFile.valid_modes then
    if m = "url" && !(MyFile.is_url path) then
      .error (PyExc.valueError (invalidUrlMsg path))
    else
      .ok ⟨path, m⟩
  else
    .error (PyExc.valueError (invalidModeMsg mode))

/-- State of the local file system plus a fault oracle.  `contents p`
is the raw text stored at `p` (`none` = no such file); `readable` and
`writable` model permission bits; `readFault`/`writeFault`, when set,
are an arbitrary further exception raised by the underlying open/read or
open/write primitives (for example a decode error). -/
structure FSState where
  contents : String → Option String
  readable : String → Bool
  writable : String → Bool
  readFault : String → Option PyExc
  writeFault : String → Option PyExc

def FSState.withContents (fs : FSState) (c : String → Option String) : FSState :=
  ⟨c, fs.readable, fs.writable, fs.readFault, fs.writeFault⟩

/-- A file system with no files, everything readable and writable, no
faults. -/
def emptyFS : FSState :=
  ⟨fun _ => none, fun _ => true, fun _ => true, fun _ => none, fun _ => none⟩

/-- Universal-newline translation performed by Python when reading a
text file opened with the default `newline=None`: CRLF and lone CR both
become LF. -/
def univNewlinesL : List Char → List Char
  | [] => []
  | [c] => [if c = '\r' then '\n' else c]
  | c :: c2 :: rest =>
    if c = '\r' then
      if c2 = '\n' then '\n' :: univNewlinesL rest
      else '\n' :: univNewlinesL (c2 :: rest)
    else c :: univNewlinesL (c2 :: rest)

def univNewlines (s : String) : String := String.mk (univNewlinesL s.data)

/-- `os.linesep` on the POSIX platform assumed by the spec. -/
def osLinesep : List Char := ['\n']

/-- Newline translation performed by Python when writing a text file
with the default `newline=None`: LF becomes `os.linesep`. -/
def writeTranslateL : List Char → List Char
  | [] => []
  | c :: rest =>
    if c = '\n' then osLinesep ++ writeTranslateL rest
    else c :: writeTranslateL rest

def writeTranslate (s : String) : String := String.mk (writeTranslateL s.data)

/-- `MyFile.read()`.  Mode gate first; then the `try` block opens and
reads the file.  `FileNotFoundError` and `PermissionError` are caught
and re-raised as `IOError` with a message; any other fault propagates
unchanged (the method has no catch-all clause). -/
def MyFile.read (f : MyFile) (fs : FSState) : Except PyExc String :=
  if f.mode ≠ "read" then
    .error (PyExc.valueError (readModeMsg f.mode))
  else
    match fs.contents f.path with
    | none => .error (PyExc.ioError (readNotFoundMsg f.path))
    | some raw =>
      if fs.readable f.path then
        match fs.readFault f.path with
        | some e => .error e
        | none => .ok (univNewlines raw)
      else
        .error (PyExc.ioError (readPermMsg f.path))

/-- The file-system state after a successful write stored `c` at `p`. -/
def writeFS (fs : FSState) (p : String) (c : String) : FSState :=
  FSState.withContents fs (fun q => if q = p then some c else fs.contents q)

/-- `MyFile.write(content)`.  Mode gate first; then opens with truncate
(`'w'`) or append (`'a'`) semantics, writes the translated content and
returns `True`.  `PermissionError` is re-raised as `IOError`; any other
fault is wrapped by the catch-all `except Exception` into `IOError`. -/
def MyFile.write (f : MyFile) (fs : FSState) (content : String) :
    Except PyExc (Bool × FSState) :=
  if f.mode ∉ (["write", "append"] : List String) then
    .error (PyExc.valueError (writeModeMsg f.mode))
  else if fs.writable f.path then
    match fs.writeFault f.path with
    | some e => .error (PyExc.ioError (writeWrapMsg e))
    | none =>
      let newContent :=
        if f.mode = "write" then writeTranslate content
        else (fs.contents f.path).getD "" ++ writeTranslate content
      .ok (true, writeFS fs f.path newContent)
  else
    .error (PyExc.ioError (writePermMsg f.path))

/-- The file-system state after a successful append of `c` at `p`:
the translated content goes after whatever the file held (a missing
file counts as empty, matching open-for-append semantics). -/
def appendFS (fs : FSState) (p c : String) : FSState :=
  writeFS fs p ((fs.contents p).getD "" ++ writeTranslate c)

/-! ### The network side: fetching, decoding, link counting -/

/-- Outcome of `urllib.request.urlopen` on the instance's URL: the raw
response body on success, or one of the failure classes caught by
`read_url` (`urllib.error.HTTPError`, `urllib.error.URLError`,
`TimeoutError`, anything else). -/
inductive FetchResult where
  | success (body : List Nat)
  | httpError (code : Nat) (reason : String)
  | urlError (reason : String)
  | timeoutErr
  | otherFailure (msg : String)
deriving DecidableEq, Repr

def readUrlModeMsg (mode : String) : String :=
  "Метод read_url() доступен только в режиме url, текущий режим: " ++ mode

def httpErrMsg (code : Nat) (reason path : String) : String :=
  "HTTP ошибка " ++ toString code ++ ": " ++ reason ++ " для URL " ++ path

def urlErrMsg (reason path : String) : String :=
  "Ошибка URL: " ++ reason ++ " для URL " ++ path

def timeoutMsg (path : String) : String :=
  "Таймаут при загрузке URL " ++ path

def readUrlWrapMsg (msg : String) : String :=
  "Ошибка при чтении URL: " ++ msg

def countModeMsg (mode : String) : String :=
  "Метод count_urls() доступен только в режиме url, текущий режим: " ++ mode

/-- A UTF-8 continuation byte. -/
def isCont (b : Nat) : Bool := 0x80 ≤ b && b ≤ 0xBF

/-- Strict UTF-8 decoding of one scalar value (as `bytes.decode('utf-8')`
does per character): rejects overlong forms, surrogates and values above
U+10FFFF.  Returns the decoded character and the remaining bytes. -/
def utf8DecodeOne? : List Nat → Option (Char × List Nat)
  | [] => none
  | b :: rest =>
    if b ≤ 0x7F then some (Char.ofNat b, rest)
    else if 0xC2 ≤ b && b ≤ 0xDF then
      match rest with
      | b1 :: r =>
        if isCont b1 then some (Char.ofNat ((b - 0xC0) * 64 + (b1 - 0x80)), r)
        else none
      | [] => none
    else if 0xE0 ≤ b && b ≤ 0xEF then
      match rest with
      | b1 :: b2 :: r =>
        let lo1 := if b = 0xE0 then 0xA0 else 0x80
        let hi1 := if b = 0xED then 0x9F else 0xBF
        if (lo1 ≤ b1 && b1 ≤ hi1) && isCont b2 then
          some (Char.ofNat ((b - 0xE0) * 4096 + (b1 - 0x80) * 64 + (b2 - 0x80)), r)
        else none
      | _ => none
    else if 0xF0 ≤ b && b ≤ 0xF4 then
      match rest with
      | b1 :: b2 :: b3 :: r =>
        let lo1 := if b = 0xF0 then 0x90 else 0x80
        let hi1 := if b = 0xF4 then 0x8F else 0xBF
        if (lo1 ≤ b1 && b1 ≤ hi1) && isCont b2 && isCont b3 then
          some (Char.ofNat ((b - 0xF0) * 262144 + (b1 - 0x80) * 4096 +
            (b2 - 0x80) * 64 + (b3 - 0x80)), r)
        else none
      | _ => none
    else none

/-- Fuel-driven loop for strict UTF-8 decoding; the fuel (at least the
byte count, each step consumes at least one byte) only bounds the
recursion. -/
def utf8DecLoop : Nat → List Nat → Option (List Char)
  | _, [] => some []
  | 0, _ :: _ => none
  | fuel + 1, b :: rest =>
    match utf8DecodeOne? (b :: rest) with
    | some (c, r) => (utf8DecLoop fuel r).map (fun cs => c :: cs)
    | none => none

/-- `bytes.decode('utf-8')`: `none` models `UnicodeDecodeError`. -/
def utf8Decode? (l : List Nat) : Option (List Char) := utf8DecLoop l.length l

/-- `bytes.decode('utf-8', errors='replace')`, modelled as one U+FFFD
replacement character per offending leading byte. -/
def utf8ReplLoop : Nat → List Nat → List Char
  | _, [] => []
  | 0, _ :: _ => []
  | fuel + 1, b :: rest =>
    match utf8DecodeOne? (b :: rest) with
    | some (c, r) => c :: utf8ReplLoop fuel r
    | none => Char.ofNat 0xFFFD :: utf8ReplLoop fuel rest

def utf8DecodeReplace (l : List Nat) : List Char := utf8ReplLoop l.length l

/-- Code points of CP1251 for bytes 0x80–0xFF; byte 0x98 is undefined in
the codec and makes decoding fail. -/
def cp1251HiTable : List (Option Nat) := [
  some 1026, some 1027, some 8218, some 1107, some 8222, some 8230, some 8224, some 8225,
  some 8364, some 8240, some 1033, some 8249, some 1034, some 1036, some 1035, some 1039,
  some 1106, some 8216, some 8217, some 8220, some 8221, some 8226, some 8211, some 8212,
  none, some 8482, some 1113, some 8250, some 1114, some 1116, some 1115, some 1119,
  some 160, some 1038, some 1118, some 1032, some 164, some 1168, some 166, some 167,
  some 1025, some 169, some 1028, some 171, some 172, some 173, some 174, some 1031,
  some 176, some 177, some 1030, some 1110, some 1169, some 181, some 182, some 183,
  some 1105, some 8470, some 1108, some 187, some 1112, some 1029, some 1109, some 1111,
  some 1040, some 1041, some 1042, some 1043, some 1044, some 1045, some 1046, some 1047,
  some 1048, some 1049, some 1050, some 1051, some 1052, some 1053, some 1054, some 1055,
  some 1056, some 1057, some 1058, some 1059, some 1060, some 1061, some 1062, some 1063,
  some 1064, some 1065, some 1066, some 1067, some 1068, some 1069, some 1070, some 1071,
  some 1072, some 1073, some 1074, some 1075, some 1076, some 1077, some 1078, some 1079,
  some 1080, some 1081, some 1082, some 1083, some 1084, some 1085, some 1086, some 1087,
  some 1088, some 1089, some 1090, some 1091, some 1092, some 1093, some 1094, some 1095,
  some 1096, some 1097, some 1098, some 1099, some 1100, some 1101, some 1102, some 1103]

def cp1251DecodeByte (b : Nat) : Option Char :=
  if b ≤ 0x7F then some (Char.ofNat b)
  else if b ≤ 0xFF then
    ((cp1251HiTable.get? (b - 0x80)).join).map Char.ofNat
  else none

/-- Byte-wise decoding with a per-byte table: fails as soon as one byte
is undefined for the codec. -/
def decodeWith (f : Nat → Option Char) : List Nat → Option (List Char)
  | [] => some []
  | b :: rest =>
    match f b with
    | none => none
    | some c => (decodeWith f rest).map (fun cs => c :: cs)

/-- `bytes.decode('cp1251')`. -/
def cp1251Decode? (l : List Nat) : Option (List Char) := decodeWith cp1251DecodeByte l

/-- Code points of KOI8-R for bytes 0x80–0xFF; every byte is defined. -/
def koi8rHiTable : List Nat := [
  9472, 9474, 9484, 9488, 9492, 9496, 9500, 9508, 9516, 9524, 9532, 9600, 9604, 9608,
  9612, 9616, 9617, 9618, 9619, 8992, 9632, 8729, 8730, 8776, 8804, 8805, 160, 8993,
  176, 178, 183, 247, 9552, 9553, 9554, 1105, 9555, 9556, 9557, 9558, 9559, 9560,
  9561, 9562, 9563, 9564, 9565, 9566, 9567, 9568, 9569, 1025, 9570, 9571, 9572, 9573,
  9574, 9575, 9576, 9577, 9578, 9579, 9580, 169, 1102, 1072, 1073, 1094, 1076, 1077,
  1092, 1075, 1093, 1080, 1081, 1082, 1083, 1084, 1085, 1086, 1087, 1103, 1088, 1089,
  1090, 1091, 1078, 1074, 1100, 1099, 1079, 1096, 1101, 1097, 1095, 1098, 1070, 1040,
  1041, 1062, 1044, 1045, 1060, 1043, 1061, 1048, 1049, 1050, 1051, 1052, 1053, 1054,
  1055, 1071, 1056, 1057, 1058, 1059, 1046, 1042, 1068, 1067, 1047, 1064, 1069, 1065,
  1063, 1066]

def koi8rDecodeByte (b : Nat) : Option Char :=
  if b ≤ 0x7F then some (Char.ofNat b)
  else if b ≤ 0xFF then
    (koi8rHiTable.get? (b - 0x80)).map Char.ofNat
  else none

/-- `bytes.decode('koi8-r')`: total on genuine bytes. -/
def koi8rDecode? (l : List Nat) : Option (List Char) := decodeWith koi8rDecodeByte l

def latin1DecodeByte (b : Nat) : Option Char :=
  if b ≤ 0xFF then some (Char.ofNat b) else none

/-- `bytes.decode('iso-8859-1')`: total on genuine bytes. -/
def latin1Decode? (l : List Nat) : Option (List Char) := decodeWith latin1DecodeByte l

/-- The ordered encoding table of `read_url`:
`encodings = ['utf-8', 'cp1251', 'koi8-r', 'iso-8859-1']`. -/
def encodingsList : List (List Nat → Option (List Char)) :=
  [utf8Decode?, cp1251Decode?, koi8rDecode?, latin1Decode?]

/-- The `for encoding in encodings` loop: first decoding that does not
raise wins. -/
def tryEncodings : List (List Nat → Option (List Char)) → List Nat → Option (List Char)
  | [], _ => none
  | e :: es, body =>
    match e body with
    | some cs => some cs
    | none => tryEncodings es body

/-- Decoding of the raw response body inside `read_url`: the encoding
loop, then the `errors='replace'` fallback. -/
def decodeBody (body : List Nat) : String :=
  match tryEncodings encodingsList body with
  | some cs => String.mk cs
  | none => String.mk (utf8DecodeReplace body)

/-- `MyFile.read_url()`: mode gate, then fetch and decode; the four
`except` clauses each re-raise as `IOError` with a message (for an HTTP
error the message carries the status code). -/
def MyFile.read_url (f : MyFile) (fetch : FetchResult) : Except PyExc String :=
  if f.mode ≠ "url" then
    .error (PyExc.valueError (readUrlModeMsg f.mode))
  else
    match fetch with
    | .success body => .ok (decodeBody body)
    | .httpError code reason => .error (PyExc.ioError (httpErrMsg code reason f.path))
    | .urlError reason => .error (PyExc.ioError (urlErrMsg reason f.path))
    | .timeoutErr => .error (PyExc.ioError (timeoutMsg f.path))
    | .otherFailure msg => .error (PyExc.ioError (readUrlWrapMsg msg))

/-! ### The regular expressions of `count_urls`

Each of the three quoted patterns and the bare pattern of `count_urls`
is deterministic: every quantifier in them is followed only by
characters its own character class excludes, so Python's backtracking
never changes the outcome and each pattern can be embedded as a
first-match scanner.  `re.IGNORECASE` is modelled as ASCII case
folding.  `re.findall` returns the capture group (the scheme plus the
following run), scanning left to right without overlap. -/

def isQuote (c : Char) : Bool := c == '"' || c == '\''

/-- `\s` of Python `re` on `str` patterns: Unicode whitespace. -/
def isPySpace (c : Char) : Bool :=
  c == ' ' || c == '\t' || c == '\n' || c == '\r' || c == '\x0b' || c == '\x0c' ||
  c == '\x1c' || c == '\x1d' || c == '\x1e' || c == '\x1f' || c == '\x85' ||
  c == '\xa0' || c == '\u1680' || (0x2000 ≤ c.toNat && c.toNat ≤ 0x200a) ||
  c == '\u2028' || c == '\u2029' || c == '\u202f' || c == '\u205f' || c == '\u3000'

/-- Match a literal case-insensitively, returning the rest. -/
def matchLitCI : List Char → List Char → Option (List Char)
  | [], s => some s
  | _ :: _, [] => none
  | p :: ps, c :: cs => if p.toLower == c.toLower then matchLitCI ps cs else none

/-- Match a literal case-insensitively, returning the consumed original
characters and the rest (for text inside the capture group). -/
def matchLitCIc : List Char → List Char → Option (List Char × List Char)
  | [], s => some ([], s)
  | _ :: _, [] => none
  | p :: ps, c :: cs =>
    if p.toLower == c.toLower then
      (matchLitCIc ps cs).map (fun pr => (c :: pr.1, pr.2))
    else none

/-- `https?://` (case-insensitive), keeping the original spelling. -/
def matchScheme (s : List Char) : Option (List Char × List Char) :=
  match matchLitCIc ['h', 't', 't', 'p'] s with
  | none => none
  | some (c1, r1) =>
    match matchLitCIc ['s', ':', '/', '/'] r1 with
    | some (c2, r2) => some (c1 ++ c2, r2)
    | none =>
      match matchLitCIc [':', '/', '/'] r1 with
      | some (c2, r2) => some (c1 ++ c2, r2)
      | none => none

/-- `href=["'](https?://[^"']+)["']` and `src=["'](https?://[^"']+)["']`,
parameterized by the attribute literal; yields the capture group and the
text after the whole match. -/
def matchAttr (attr : List Char) (s : List Char) : Option (String × List Char) :=
  match matchLitCI attr s with
  | none => none
  | some r1 =>
    match r1 with
    | [] => none
    | q :: r2 =>
      if isQuote q then
        match matchScheme r2 with
        | none => none
        | some (sch, r3) =>
          let sp := List.span (fun c => !(isQuote c)) r3
          match sp.1 with
          | [] => none
          | _ :: _ =>
            match sp.2 with
            | [] => none
            | q2 :: r4 => if isQuote q2 then some (String.mk (sch ++ sp.1), r4) else none
      else none

def matchHref (s : List Char) : Option (String × List Char) :=
  matchAttr ['h', 'r', 'e', 'f', '='] s

def matchSrc (s : List Char) : Option (String × List Char) :=
  matchAttr ['s', 'r', 'c', '='] s

/-- `url\(["']?(https?://[^"')]+)["']?\)`. -/
def matchCssUrl (s : List Char) : Option (String × List Char) :=
  match matchLitCI ['u', 'r', 'l', '('] s with
  | none => none
  | some r1 =>
    let r2 := match r1 with
      | q :: rr => if isQuote q then rr else r1
      | [] => r1
    match matchScheme r2 with
    | none => none
    | some (sch, r3) =>
      let sp := List.span (fun c => !(isQuote c) && !(c == ')')) r3
      match sp.1 with
      | [] => none
      | _ :: _ =>
        let r4 := match sp.2 with
          | q2 :: rr => if isQuote q2 then rr else sp.2
          | [] => sp.2
        match r4 with
        | ')' :: r5 => some (String.mk (sch ++ sp.1), r5)
        | _ => none

/-- `https?://[^\s<>"']+` (no capture group: the whole match is kept). -/
def matchBare (s : List Char) : Option (String × List Char) :=
  match matchScheme s with
  | none => none
  | some (sch, r1) =>
    let sp := List.span
      (fun c => !(isPySpace c) && !(c == '<') && !(c == '>') && !(isQuote c)) r1
    match sp.1 with
    | [] => none
    | _ :: _ => some (String.mk (sch ++ sp.1), sp.2)

/-- `re.findall`: left-to-right scan, non-overlapping matches.  Each of
the matchers above consumes at least one character on success, so fuel
equal to the text length suffices. -/
def findallLoop (m : List Char → Option (String × List Char)) :
    Nat → List Char → List String
  | _, [] => []
  | 0, _ :: _ => []
  | fuel + 1, c :: rest =>
    match m (c :: rest) with
    | some (g, r) => g :: findallLoop m fuel r
    | none => findallLoop m fuel rest

def findall (m : List Char → Option (String × List Char)) (s : List Char) : List String :=
  findallLoop m s.length s

/-- All URLs found by the four patterns of `count_urls`, in scan order,
with repetitions. -/
def urlsFound (html : String) : List String :=
  findall matchHref html.data ++ findall matchSrc html.data ++
    findall matchCssUrl html.data ++ findall matchBare html.data

/-- The link count: `urls` is a Python `set`, so `len(urls)` is the
number of distinct URL strings found. -/
def countUrlsIn (html : String) : Nat := (urlsFound html).dedup.length

/-- `MyFile.count_urls()`: mode gate, then the whole body runs under a
catch-all `except Exception` that logs a warning (console output, not
modelled) and returns 0. -/
def MyFile.count_urls (f : MyFile) (fetch : FetchResult) : Except PyExc Nat :=
  if f.mode ≠ "url" then
    .error (PyExc.valueError (countModeMsg f.mode))
  else
    match MyFile.read_url f fetch with
    | .ok html => .ok (countUrlsIn html)
    | .error _ => .ok 0

/-- The concrete page of the C8 test: exactly one `href` URL, one `src`
URL and one bare URL token. -/
def samplePage : String :=
  "<a href=\"http://a.com\"> <img src=\"http://b.com\"> and http://c.com here"

/-- A page carrying the same URL once in `href`, once in `src` and once
bare. -/
def dupPage : String :=
  "<a href=\"http://a.com\"><img src=\"http://a.com\"> http://a.com"

/-- A file system holding "secret.txt" without read permission. -/
def unreadableFS : FSState :=
  ⟨fun q => if q = "secret.txt" then some "data" else none, fun _ => false, fun _ => true,
   fun _ => none, fun _ => none⟩

/-! ### Helper lemmas -/

theorem writeTranslateL_id (l : List Char) : writeTranslateL l = l := by
  induction l with
  | nil => rfl
  | cons c rest ih =>
    by_cases hc : c = '\n'
    · simp [writeTranslateL, hc, osLinesep, ih]
    · simp [writeTranslateL, hc, ih]

theorem writeTranslate_id (s : String) : writeTranslate s = s := by
  unfold writeTranslate
  rw [writeTranslateL_id]

theorem univNewlinesL_id (l : List Char) (h : '\r' ∉ l) : univNewlinesL l = l := by
  induction l with
  | nil => rfl
  | cons c rest ih =>
    have hc : c ≠ '\r' := fun hh => h (hh ▸ List.mem_cons_self c rest)
    have hr : '\r' ∉ rest := fun hh => h (List.mem_cons_of_mem c hh)
    cases rest with
    | nil => simp [univNewlinesL, hc]
    | cons c2 rest2 => simp [univNewlinesL, hc, ih hr]

theorem univNewlines_id (s : String) (h : '\r' ∉ s.data) : univNewlines s = s := by
  unfold univNewlines
  rw [univNewlinesL_id s.data h]

/-! ### Claims -/

/-- C1 (amended): construction is case-insensitive on the mode string:
`new(location, mode)` succeeds for every mode whose lower-casing is in
{read, write, append, url} with a matching-shape location, fails with
`ValueError` for every mode whose lower-casing is outside that set, and
for url mode fails with `ValueError` whenever the location does not
start with one of the four recognized scheme prefixes. -/
theorem c1_construction_amended (loc mode : String) :
    (pyLower mode ∈ MyFile.valid_modes →
      (pyLower mode = "url" → MyFile.is_url loc = true) →
      MyFile.init loc mode = .ok ⟨loc, pyLower mode⟩) ∧
    (pyLower mode ∉ MyFile.valid_modes →
      MyFile.init loc mode = .error (PyExc.valueError (invalidModeMsg mode))) ∧
    (pyLower mode = "url" → MyFile.is_url loc = false →
      MyFile.init loc mode = .error (PyExc.valueError (invalidUrlMsg loc))) := by
  have hurl : ("url" : String) ∈ MyFile.valid_modes := by decide
  refine ⟨?_, ?_, ?_⟩
  · intro h1 h2
    by_cases hu : pyLower mode = "url"
    · simp [MyFile.init, h1, hu, h2 hu, hurl]
    · simp [MyFile.init, h1, hu]
  · intro h1
    simp [MyFile.init, h1]
  · intro h1 h2
    simp [MyFile.init, h1, h2, hurl]

/-- C1 counterexample: the claim as stated says construction fails for
every mode string outside {read, write, append, url}; the mode string
"READ" is outside that set yet construction succeeds, because
`__init__` lower-cases the mode first. -/
theorem c1_construction_counterexample :
    ("READ" ∉ MyFile.valid_modes) ∧
    MyFile.init "notes.txt" "READ" = .ok ⟨"notes.txt", "read"⟩ :=
  ⟨by decide, rfl⟩

/-- C1 witness: the amended theorem at concrete inputs. -/
theorem c1_construction_witness :
    MyFile.init "data.txt" "Read" = .ok ⟨"data.txt", "read"⟩ ∧
    MyFile.init "x" "banana" = .error (PyExc.valueError (invalidModeMsg "banana")) ∧
    MyFile.init "x" "url" = .error (PyExc.valueError (invalidUrlMsg "x")) :=
  ⟨(c1_construction_amended "data.txt" "Read").1 (by decide) (by decide),
   (c1_construction_amended "x" "banana").2.1 (by decide),
   (c1_construction_amended "x" "url").2.2 (by decide) (by decide)⟩

/-- C2: `read()` on any instance whose mode is not `read` fails with the
mode-mismatch `ValueError` for every file-system state (so before any
handle is opened or state changed), and `write(content)` likewise fails
on any instance whose mode is neither `write` nor `append`; the returned
error does not depend on the state, and `write` returns no new state. -/
theorem c2_mode_gating (p m : String) (fs : FSState) (content : String) :
    (m ≠ "read" →
      MyFile.read ⟨p, m⟩ fs = .error (PyExc.valueError (readModeMsg m))) ∧
    (m ≠ "write" → m ≠ "append" →
      MyFile.write ⟨p, m⟩ fs content = .error (PyExc.valueError (writeModeMsg m))) := by
  constructor
  · intro h
    simp [MyFile.read, h]
  · intro h1 h2
    simp [MyFile.write, h1, h2]

/-- C2 witness: a Write-mode instance refuses `read()` and a Read-mode
instance refuses `write()`. -/
theorem c2_mode_gating_witness :
    ("write" ≠ "read") ∧
    MyFile.read ⟨"f.txt", "write"⟩ emptyFS = .error (PyExc.valueError (readModeMsg "write")) ∧
    MyFile.write ⟨"f.txt", "read"⟩ emptyFS "x" = .error (PyExc.valueError (writeModeMsg "read")) :=
  ⟨by decide,
   (c2_mode_gating "f.txt" "write" emptyFS "x").1 (by decide),
   (c2_mode_gating "f.txt" "read" emptyFS "x").2 (by decide) (by decide)⟩

/-- C5: on an HTTP-level failure, `read_url` raises `IOError` whose
message carries the HTTP status code, while `count_urls` under the same
condition returns 0 without raising (its console warning is output, not
modelled). -/
theorem c5_swallow_and_default (p reason : String) (code : Nat) :
    MyFile.read_url ⟨p, "url"⟩ (FetchResult.httpError code reason) =
      .error (PyExc.ioError (httpErrMsg code reason p)) ∧
    MyFile.count_urls ⟨p, "url"⟩ (FetchResult.httpError code reason) = .ok 0 :=
  ⟨rfl, rfl⟩

/-- C9: `count_urls` on an instance whose mode is not `url` raises the
mode-mismatch `ValueError` (the mode check precedes the `try` block),
while every failure of the fetch itself — HTTP error, URL error,
timeout, anything else — is swallowed and yields 0. -/
theorem c9_count_mode_check (p m : String) (fetch : FetchResult) :
    (m ≠ "url" →
      MyFile.count_urls ⟨p, m⟩ fetch = .error (PyExc.valueError (countModeMsg m))) ∧
    (∀ code reason,
      MyFile.count_urls ⟨p, "url"⟩ (FetchResult.httpError code reason) = .ok 0) ∧
    (∀ reason, MyFile.count_urls ⟨p, "url"⟩ (FetchResult.urlError reason) = .ok 0) ∧
    (MyFile.count_urls ⟨p, "url"⟩ FetchResult.timeoutErr = .ok 0) ∧
    (∀ msg, MyFile.count_urls ⟨p, "url"⟩ (FetchResult.otherFailure msg) = .ok 0) := by
  refine ⟨?_, fun code reason => rfl, fun reason => rfl, rfl, fun msg => rfl⟩
  intro h
  simp [MyFile.count_urls, h]

/-- C9 witness: a Write-mode instance raises instead of returning 0. -/
theorem c9_count_mode_check_witness :
    ("write" ≠ "url") ∧
    MyFile.count_urls ⟨"http://e.com", "write"⟩ (FetchResult.success []) =
      .error (PyExc.valueError (countModeMsg "write")) :=
  ⟨by decide,
   (c9_count_mode_check "http://e.com" "write" (FetchResult.success [])).1 (by decide)⟩

/-- C10: whenever `write(content)` returns at all, the returned success
flag is `True`; failure is signalled exclusively by exceptions. -/
theorem c10_write_returns_true (p m : String) (fs : FSState) (content : String)
    (b : Bool) (fs2 : FSState)
    (h : MyFile.write ⟨p, m⟩ fs content = .ok (b, fs2)) : b = true := by
  unfold MyFile.write at h
  split at h
  · exact Except.noConfusion h
  · split at h
    · split at h
      · exact Except.noConfusion h
      · simp only [Except.ok.injEq, Prod.mk.injEq] at h
        exact h.1.symm
    · exact Except.noConfusion h

/-- C10 witness: a concrete successful write returns `True`. -/
theorem c10_write_returns_true_witness :
    (MyFile.write ⟨"f.txt", "write"⟩ emptyFS "hi" =
      .ok (true, writeFS emptyFS "f.txt" (writeTranslate "hi"))) ∧ true = true :=
  ⟨rfl, c10_write_returns_true "f.txt" "write" emptyFS "hi" true
    (writeFS emptyFS "f.txt" (writeTranslate "hi")) rfl⟩

/-- C3 (amended): writing `C` in Write mode and reading it back with a
fresh Read-mode instance returns exactly `C` for every `C` that contains
no carriage-return character; reading a text file translates CR and
CRLF to LF (universal newlines), so contents with carriage returns come
back normalized rather than verbatim. -/
theorem c3_round_trip_amended (p content : String) (fs : FSState)
    (hCR : '\r' ∉ content.data)
    (hwr : fs.writable p = true) (hwf : fs.writeFault p = none)
    (hrd : fs.readable p = true) (hrf : fs.readFault p = none) :
    MyFile.write ⟨p, "write"⟩ fs content =
      .ok (true, writeFS fs p (writeTranslate content)) ∧
    MyFile.read ⟨p, "read"⟩ (writeFS fs p (writeTranslate content)) = .ok content := by
  constructor
  · simp [MyFile.write, hwr, hwf]
  · simp [MyFile.read, writeFS, FSState.withContents, hrd, hrf, writeTranslate_id,
      univNewlines_id content hCR]

/-- C3 counterexample: the claim as stated quantifies over every text;
for the text "a\rb" the written file reads back as "a\nb". -/
theorem c3_round_trip_counterexample :
    MyFile.write ⟨"f.txt", "write"⟩ emptyFS "a\rb" =
      .ok (true, writeFS emptyFS "f.txt" (writeTranslate "a\rb")) ∧
    MyFile.read ⟨"f.txt", "read"⟩ (writeFS emptyFS "f.txt" (writeTranslate "a\rb")) =
      .ok "a\nb" ∧
    ("a\nb" : String) ≠ "a\rb" :=
  ⟨rfl, rfl, by decide⟩

/-- C3 witness: a concrete round trip of "hello". -/
theorem c3_round_trip_witness :
    ('\r' ∉ "hello".data) ∧
    (MyFile.write ⟨"f.txt", "write"⟩ emptyFS "hello" =
        .ok (true, writeFS emptyFS "f.txt" (writeTranslate "hello")) ∧
      MyFile.read ⟨"f.txt", "read"⟩ (writeFS emptyFS "f.txt" (writeTranslate "hello")) =
        .ok "hello") :=
  ⟨by decide, c3_round_trip_amended "f.txt" "hello" emptyFS (by decide) rfl rfl rfl rfl⟩

/-- C4 (amended): appending `C1` then `C2` yields the prior contents
followed by `C1 ++ C2` on a subsequent read, for carriage-return-free
prior contents, `C1` and `C2`; with carriage returns the read returns
the newline-normalized text instead. -/
theorem c4_append_amended (p c1 c2 : String) (fs : FSState)
    (h0 : '\r' ∉ ((fs.contents p).getD "").data)
    (h1 : '\r' ∉ c1.data) (h2 : '\r' ∉ c2.data)
    (hwr : fs.writable p = true) (hwf : fs.writeFault p = none)
    (hrd : fs.readable p = true) (hrf : fs.readFault p = none) :
    MyFile.write ⟨p, "append"⟩ fs c1 = .ok (true, appendFS fs p c1) ∧
    MyFile.write ⟨p, "append"⟩ (appendFS fs p c1) c2 =
      .ok (true, appendFS (appendFS fs p c1) p c2) ∧
    MyFile.read ⟨p, "read"⟩ (appendFS (appendFS fs p c1) p c2) =
      .ok ((fs.contents p).getD "" ++ c1 ++ c2) := by
  have hall : '\r' ∉ (((fs.contents p).getD "" ++ c1) ++ c2).data := by
    simp [String.data_append, List.mem_append, h0, h1, h2]
  refine ⟨?_, ?_, ?_⟩
  · simp [MyFile.write, hwr, hwf, appendFS]
  · simp [MyFile.write, appendFS, writeFS, FSState.withContents, hwr, hwf]
  · simp [MyFile.read, appendFS, writeFS, FSState.withContents, hrd, hrf,
      writeTranslate_id, univNewlines_id _ hall]

/-- C4 counterexample: appending "a\r" then "b" reads back "a\nb", not
the concatenation "a\rb". -/
theorem c4_append_counterexample :
    MyFile.write ⟨"f.txt", "append"⟩ emptyFS "a\r" =
      .ok (true, appendFS emptyFS "f.txt" "a\r") ∧
    MyFile.write ⟨"f.txt", "append"⟩ (appendFS emptyFS "f.txt" "a\r") "b" =
      .ok (true, appendFS (appendFS emptyFS "f.txt" "a\r") "f.txt" "b") ∧
    MyFile.read ⟨"f.txt", "read"⟩ (appendFS (appendFS emptyFS "f.txt" "a\r") "f.txt" "b") =
      .ok "a\nb" ∧
    ("a\nb" : String) ≠ "" ++ "a\r" ++ "b" :=
  ⟨rfl, rfl, rfl, by decide⟩

/-- C4 witness: appending "ab" then "cd" to an empty file system reads
back "abcd". -/
theorem c4_append_witness :
    ('\r' ∉ "ab".data) ∧
    MyFile.read ⟨"f.txt", "read"⟩ (appendFS (appendFS emptyFS "f.txt" "ab") "f.txt" "cd") =
      .ok ((emptyFS.contents "f.txt").getD "" ++ "ab" ++ "cd") :=
  ⟨by decide,
   (c4_append_amended "f.txt" "ab" "cd" emptyFS (by decide) (by decide) (by decide)
     rfl rfl rfl rfl).2.2⟩

/-- C6 (amended): on a Read-mode instance, a missing path raises
`IOError` with the not-found message and an unreadable file raises
`IOError` with the no-permission message — the SAME exception class,
distinguishable only by message text — while any other underlying fault
propagates unchanged (it is not wrapped into a generic failure). -/
theorem c6_error_taxonomy_amended (p : String) (fs : FSState) :
    (fs.contents p = none →
      MyFile.read ⟨p, "read"⟩ fs = .error (PyExc.ioError (readNotFoundMsg p))) ∧
    (∀ s, fs.contents p = some s → fs.readable p = false →
      MyFile.read ⟨p, "read"⟩ fs = .error (PyExc.ioError (readPermMsg p))) ∧
    (∀ s e, fs.contents p = some s → fs.readable p = true → fs.readFault p = some e →
      MyFile.read ⟨p, "read"⟩ fs = .error e) ∧
    (PyExc.ioError (readNotFoundMsg p)).kind = (PyExc.ioError (readPermMsg p)).kind := by
  refine ⟨?_, ?_, ?_, rfl⟩
  · intro h
    simp [MyFile.read, h]
  · intro s h1 h2
    simp [MyFile.read, h1, h2]
  · intro s e h1 h2 h3
    simp [MyFile.read, h1, h2, h3]

/-- C6 counterexample: the claim says the not-found and permission
failures carry distinct error types; in the code both are re-raised as
plain `IOError`, so their exception class is identical (only the
message differs) and a caller cannot distinguish them by type. -/
theorem c6_error_taxonomy_counterexample :
    MyFile.read ⟨"secret.txt", "read"⟩ emptyFS =
      .error (PyExc.ioError (readNotFoundMsg "secret.txt")) ∧
    MyFile.read ⟨"secret.txt", "read"⟩ unreadableFS =
      .error (PyExc.ioError (readPermMsg "secret.txt")) ∧
    (PyExc.ioError (readNotFoundMsg "secret.txt")).kind =
      (PyExc.ioError (readPermMsg "secret.txt")).kind ∧
    readNotFoundMsg "secret.txt" ≠ readPermMsg "secret.txt" :=
  ⟨rfl, rfl, rfl, by decide⟩

/-- C6 witness: the amended theorem at a concrete missing file. -/
theorem c6_error_taxonomy_witness :
    (emptyFS.contents "a.txt" = none) ∧
    MyFile.read ⟨"a.txt", "read"⟩ emptyFS =
      .error (PyExc.ioError (readNotFoundMsg "a.txt")) :=
  ⟨rfl, (c6_error_taxonomy_amended "a.txt" emptyFS).1 rfl⟩

/-- C7: `read_url` decodes the raw body by attempting, in this exact
order, UTF-8, CP1251, KOI8-R and ISO-8859-1, returning the first
decoding that succeeds, and falls back to UTF-8 with replacement
characters exactly when all four fail; moreover ISO-8859-1 accepts
every genuine byte sequence, so the fallback is never exercised. -/
theorem c7_decode_fallback (body : List Nat) :
    decodeBody body =
      (match utf8Decode? body with
       | some cs => String.mk cs
       | none =>
         match cp1251Decode? body with
         | some cs => String.mk cs
         | none =>
           match koi8rDecode? body with
           | some cs => String.mk cs
           | none =>
             match latin1Decode? body with
             | some cs => String.mk cs
             | none => String.mk (utf8DecodeReplace body)) ∧
    ((∀ b ∈ body, b ≤ 0xFF) → (latin1Decode? body).isSome = true) := by
  constructor
  · cases h1 : utf8Decode? body
    · cases h2 : cp1251Decode? body
      · cases h3 : koi8rDecode? body
        · cases h4 : latin1Decode? body <;>
            simp [decodeBody, encodingsList, tryEncodings, h1, h2, h3, h4]
        · simp [decodeBody, encodingsList, tryEncodings, h1, h2, h3]
      · simp [decodeBody, encodingsList, tryEncodings, h1, h2]
    · simp [decodeBody, encodingsList, tryEncodings, h1]
  · intro h
    induction body with
    | nil => rfl
    | cons b rest ih =>
      have hb : b ≤ 0xFF := h b (List.mem_cons_self b rest)
      have hr := ih (fun x hx => h x (List.mem_cons_of_mem b hx))
      cases hcs : decodeWith latin1DecodeByte rest with
      | none =>
        rw [latin1Decode?, hcs] at hr
        exact absurd hr (by simp)
      | some cs =>
        simp [latin1Decode?, decodeWith, latin1DecodeByte, hb, hcs]

/-- C7 witness: a byte list within range is accepted by ISO-8859-1. -/
theorem c7_decode_fallback_witness :
    (∀ b ∈ ([0x41, 0xFF] : List Nat), b ≤ 0xFF) ∧
    (latin1Decode? [0x41, 0xFF]).isSome = true :=
  ⟨by decide, (c7_decode_fallback [0x41, 0xFF]).2 (by decide)⟩

/-- C8: on the fixed page holding exactly one `href` URL, one `src` URL
and one bare URL token, `count_urls` counts 3; a page repeating one URL
three ways counts 1; and in general the count is the number of DISTINCT
URL strings found by the four patterns (set-based deduplication). -/
theorem c8_link_count :
    countUrlsIn samplePage = 3 ∧
    countUrlsIn dupPage = 1 ∧
    ∀ html : String, countUrlsIn html = (urlsFound html).toFinset.card := by
  refine ⟨by decide, by decide, fun html => ?_⟩
  rw [countUrlsIn]
  exact (List.card_toFinset (urlsFound html)).symm
